import Mathlib

/-!
Verification of the metrics pipeline of `src/observability/metrics.py`.

The Python source wires instrument objects (`CounterMetric`, `HistogramMetric`,
`GaugeMetric`, `UpDownCounterMetric`) and a registry (`MetricsManager`) over an
external telemetry SDK.  The code under `src/` is embedded directly; the
SDK-held aggregation state that a source-level `_instrument.add` call folds
into, and the provider's flush-on-shutdown behaviour, are not part of the
repository and are modelled from the spec (each such definition says so in its
doc comment).  Numeric values are modelled exactly: Python ints and floats are
carried as integers and rationals.
-/

/-- Attribute sets: Python `Dict[str, str]`-style attribute dictionaries,
as association lists (no duplicate keys arise from dict literals). -/
abbrev Attrs := List (String × String)

/-- Key-major total preorder on attribute entries, used only to canonicalize
attribute sets so that equality ignores insertion order, the way Python dict
(and the SDK's frozen attribute key) equality does. -/
def attrPairLe (x y : String × String) : Bool :=
  if x.1 < y.1 then true
  else if y.1 < x.1 then false
  else if x.2 < y.2 then true
  else false

/-- Ordered insertion of one attribute entry. -/
def attrInsert (x : String × String) : Attrs → Attrs
  | [] => [x]
  | y :: rest => if attrPairLe x y then x :: y :: rest else y :: attrInsert x rest

/-- Canonical (sorted) form of an attribute set. -/
def attrCanon (a : Attrs) : Attrs :=
  a.foldr attrInsert []

/-- Equality of attribute dictionaries as Python compares them: the same
key/value pairs, regardless of insertion order. -/
def attrEq (a b : Attrs) : Bool :=
  attrCanon a == attrCanon b

theorem attrEq_congr_left {x a : Attrs} (h : attrEq x a = true) (A : Attrs) :
    attrEq x A = attrEq a A := by
  unfold attrEq at *
  rw [beq_iff_eq] at h
  rw [h]

/-- Python numbers as passed to `record(value: Union[int, float], ...)`;
floats are modelled as exact rationals. -/
inductive PyNumber where
  | int : Int → PyNumber
  | float : ℚ → PyNumber
deriving DecidableEq

/-- Python `float(value)` (and the numeric value used by `value < 0` and by
the SDK's sum aggregation), as an exact rational. -/
def PyNumber.toFloat : PyNumber → ℚ
  | .int n => (n : ℚ)
  | .float q => q

/-- Errors a `record` call can surface.  `instrumentNotCreated` is the
`RuntimeError` raised when `_instrument is None`; `invalidValue` is the
`ValueError("Counter values must be non-negative")`; `managerShutdown` is the
spec's `ManagerShutdown` taxonomy entry (§7) — the source never produces it. -/
inductive RecordError where
  | instrumentNotCreated
  | invalidValue
  | managerShutdown
deriving DecidableEq

/-- Modelled from the spec: the per-series cumulative state held by the SDK
counter instrument that `_instrument.add` folds into — one running sum per
distinct attribute set (§3 AggregatedSeries, §4.2 Aggregation Buffer). -/
abbrev CounterState := List (Attrs × ℚ)

/-- Modelled from the spec: folding one measurement into the series keyed by
its attribute set (creating the series on first use) — the behaviour of the
SDK-side `add` that `CounterMetric.record` delegates to. -/
def counterAdd (st : CounterState) (attrs : Attrs) (v : ℚ) : CounterState :=
  match st with
  | [] => [(attrs, v)]
  | (a, s) :: rest =>
    if attrEq a attrs then (a, s + v) :: rest else (a, s) :: counterAdd rest attrs v

/-- `CounterMetric` (source lines 53–81): name/description/unit from
`BaseMetric.__init__`; `instrument` is `_instrument`, `none` until
`create_instrument` runs, afterwards the SDK counter state. -/
structure CounterMetric where
  name : String
  description : String
  unit : String
  instrument : Option CounterState
deriving DecidableEq

/-- `CounterMetric.record` (source lines 73–81): raise if the instrument was
never created, raise `ValueError` on a negative value, otherwise delegate to
`_instrument.add(value, attributes)`.  The returned metric is the state after
the call; the error component is the raised exception, if any (a raise happens
before any mutation, so the state is returned unchanged on error). -/
def CounterMetric.record (m : CounterMetric) (value : PyNumber) (attributes : Attrs) :
    CounterMetric × Option RecordError :=
  match m.instrument with
  | none => (m, some .instrumentNotCreated)
  | some st =>
    if value.toFloat < 0 then (m, some .invalidValue)
    else ({ m with instrument := some (counterAdd st attributes value.toFloat) }, none)

/-- Modelled from the spec: `snapshot()` reports every series of the counter
with its cumulative sum (§4.2, cumulative temporality) — the SDK state is read
as-is, sums are not reset. -/
def CounterMetric.snapshot (m : CounterMetric) : CounterState :=
  m.instrument.getD []

/-- A sequence of `record` calls, each with its attribute set and value; the
boolean is `true` iff every call in the sequence succeeded. -/
def CounterMetric.recordSeq (m : CounterMetric) (ms : List (Attrs × PyNumber)) :
    CounterMetric × Bool :=
  match ms with
  | [] => (m, true)
  | (a, v) :: rest =>
    let r := m.record v a
    let t := r.1.recordSeq rest
    (t.1, r.2.isNone && t.2)

/-- Sum reported for the series identified by attribute set `A` (0 when the
series does not exist). -/
def seriesSum : CounterState → Attrs → ℚ
  | [], _ => 0
  | (a, s) :: rest, A => (if attrEq a A then s else 0) + seriesSum rest A

/-- Arithmetic sum of the values of the measurements in `ms` that were
recorded on the series identified by `A`. -/
def seriesTotal : List (Attrs × PyNumber) → Attrs → ℚ
  | [], _ => 0
  | (a, v) :: rest, A => (if attrEq a A then v.toFloat else 0) + seriesTotal rest A

theorem seriesSum_counterAdd (st : CounterState) (a A : Attrs) (v : ℚ) :
    seriesSum (counterAdd st a v) A = seriesSum st A + (if attrEq a A then v else 0) := by
  induction st with
  | nil => simp [counterAdd, seriesSum, add_comm]
  | cons hd rest ih =>
    obtain ⟨x, s⟩ := hd
    by_cases hx : attrEq x a = true
    · rw [counterAdd]
      simp only [hx, if_true, seriesSum]
      rw [attrEq_congr_left hx A]
      by_cases hA : attrEq a A = true
      · simp [hA]; ring
      · simp [hA]
    · rw [counterAdd]
      simp only [hx, if_false, seriesSum, Bool.false_eq_true]
      rw [ih]
      ring

/-- Folding a whole measurement list into the SDK counter state. -/
def applyMeasurements (st : CounterState) (ms : List (Attrs × PyNumber)) : CounterState :=
  ms.foldl (fun s p => counterAdd s p.1 p.2.toFloat) st

theorem seriesSum_applyMeasurements (ms : List (Attrs × PyNumber)) (st : CounterState)
    (A : Attrs) :
    seriesSum (applyMeasurements st ms) A = seriesSum st A + seriesTotal ms A := by
  induction ms generalizing st with
  | nil => simp [applyMeasurements, seriesTotal]
  | cons p rest ih =>
    obtain ⟨a, v⟩ := p
    simp only [applyMeasurements, List.foldl_cons, seriesTotal] at *
    rw [ih, seriesSum_counterAdd]
    ring

theorem recordSeq_ok (ms : List (Attrs × PyNumber)) (m : CounterMetric) (st : CounterState)
    (hm : m.instrument = some st) (hv : ∀ p ∈ ms, 0 ≤ (p.2).toFloat) :
    m.recordSeq ms = ({ m with instrument := some (applyMeasurements st ms) }, true) := by
  induction ms generalizing m st with
  | nil =>
    simp only [CounterMetric.recordSeq, applyMeasurements, List.foldl_nil]
    cases m
    simp_all
  | cons p rest ih =>
    obtain ⟨a, v⟩ := p
    have hv0 : ¬ v.toFloat < 0 := not_lt.mpr (hv (a, v) (List.mem_cons_self _ _))
    simp only [CounterMetric.recordSeq, CounterMetric.record, hm, hv0, if_false]
    have step := ih { m with instrument := some (counterAdd st a v.toFloat) }
      (counterAdd st a v.toFloat) rfl (fun p hp => hv p (List.mem_cons_of_mem _ hp))
    simp only [step, applyMeasurements, List.foldl_cons, Option.isNone_none, Bool.true_and]

/-- `GaugeMetric` (source lines 112–147): `currentValue` is `_current_value`,
initialized to `0.0`; the gauge keeps a single per-instrument value and its
observable-gauge callback reports exactly that value. -/
structure GaugeMetric where
  name : String
  description : String
  unit : String
  currentValue : ℚ
deriving DecidableEq

/-- `GaugeMetric.record` (source lines 141–143): `self._current_value =
float(value)` — no instrument check, the `attributes` argument is unused. -/
def GaugeMetric.record (m : GaugeMetric) (value : PyNumber) (attributes : Attrs) :
    GaugeMetric :=
  { m with currentValue := value.toFloat }

/-- `GaugeMetric.get_value` (source lines 145–147); it is also the value the
observable-gauge callback reports at the next snapshot. -/
def GaugeMetric.get_value (m : GaugeMetric) : ℚ :=
  m.currentValue

/-- A sequence of gauge `record` calls (they never raise). -/
def GaugeMetric.recordSeq (m : GaugeMetric) (ms : List (Attrs × PyNumber)) : GaugeMetric :=
  ms.foldl (fun g p => g.record p.2 p.1) m

theorem gauge_recordSeq_getLast? (ms : List (Attrs × PyNumber)) (m : GaugeMetric) :
    (m.recordSeq ms).currentValue =
      match ms.getLast? with
      | some p => p.2.toFloat
      | none => m.currentValue := by
  induction ms generalizing m with
  | nil => simp [GaugeMetric.recordSeq]
  | cons p rest ih =>
    cases rest with
    | nil => simp [GaugeMetric.recordSeq, GaugeMetric.record]
    | cons q rest' =>
      have h1 : (p :: q :: rest').getLast? = (q :: rest').getLast? := by
        simp [List.getLast?]
      rw [h1]
      have h2 : m.recordSeq (p :: q :: rest') = (m.record p.2 p.1).recordSeq (q :: rest') := by
        simp [GaugeMetric.recordSeq]
      rw [h2, ih]
      cases h3 : (q :: rest').getLast? with
      | none => simp [List.getLast?] at h3
      | some x => rfl

/-- C1: for every sequence of record calls with non-negative values on a
Counter instrument's series, every call succeeds and the sum reported at the
next snapshot for that series equals the arithmetic sum of all values recorded
on it since the series was created (cumulative temporality). -/
theorem counter_snapshot_cumulative_sum (m : CounterMetric) (ms : List (Attrs × PyNumber))
    (A : Attrs) (hm : m.instrument = some [])
    (hv : ∀ p ∈ ms, 0 ≤ (p.2).toFloat) :
    (m.recordSeq ms).2 = true ∧
    seriesSum (m.recordSeq ms).1.snapshot A = seriesTotal ms A := by
  rw [recordSeq_ok ms m [] hm hv]
  refine ⟨rfl, ?_⟩
  simp [CounterMetric.snapshot, seriesSum_applyMeasurements, seriesSum]

theorem counter_snapshot_cumulative_sum_witness :
    ((⟨"requests_total", "Total requests", "1", some []⟩ : CounterMetric).recordSeq
        [([("method", "GET")], .int 2), ([("method", "GET")], .int 3)]).2 = true ∧
    seriesSum (((⟨"requests_total", "Total requests", "1", some []⟩ : CounterMetric).recordSeq
        [([("method", "GET")], .int 2), ([("method", "GET")], .int 3)]).1.snapshot)
        [("method", "GET")] =
      seriesTotal [([("method", "GET")], .int 2), ([("method", "GET")], .int 3)]
        [("method", "GET")] :=
  counter_snapshot_cumulative_sum _ _ _ rfl (by decide)

/-- C2: recording a negative value on a Counter fails with the invalid-value
error (the source's ValueError) and leaves the series state unchanged: the
snapshot after the failing call equals the snapshot before it — the
measurement is dropped. -/
theorem counter_record_negative_fails (m : CounterMetric) (st : CounterState)
    (v : PyNumber) (a : Attrs) (hm : m.instrument = some st) (hv : v.toFloat < 0) :
    (m.record v a).2 = some RecordError.invalidValue ∧
    (m.record v a).1.snapshot = m.snapshot := by
  simp only [CounterMetric.record, hm, if_pos hv]
  exact ⟨trivial, trivial⟩

theorem counter_record_negative_fails_witness :
    ((⟨"errors_total", "Total errors", "1", some []⟩ : CounterMetric).record
        (.int (-1)) []).2 = some RecordError.invalidValue ∧
    ((⟨"errors_total", "Total errors", "1", some []⟩ : CounterMetric).record
        (.int (-1)) []).1.snapshot =
      (⟨"errors_total", "Total errors", "1", some []⟩ : CounterMetric).snapshot :=
  counter_record_negative_fails _ [] _ [] rfl (by decide)

/-- C3: for every non-empty sequence of record calls on a Gauge instrument's
series, the value reported at the next snapshot (get_value, which the
observable-gauge callback reads) equals the value passed to the most recent
record call, regardless of how many earlier calls occurred. -/
theorem gauge_snapshot_last_value (m : GaugeMetric) (ms : List (Attrs × PyNumber))
    (h : ms ≠ []) :
    (m.recordSeq ms).get_value = (ms.getLast h).2.toFloat := by
  rw [GaugeMetric.get_value, gauge_recordSeq_getLast? ms m,
    List.getLast?_eq_getLast ms h]

theorem gauge_snapshot_last_value_witness :
    ((⟨"memory_usage_bytes", "Current memory usage", "By", 0⟩ : GaugeMetric).recordSeq
        [([], .int 5), ([], .int 9)]).get_value =
      (([(([] : Attrs), PyNumber.int 5), (([] : Attrs), PyNumber.int 9)].getLast
        (List.cons_ne_nil _ _)).2).toFloat :=
  gauge_snapshot_last_value _ _ (List.cons_ne_nil _ _)

/-- C9: GaugeMetric.record ignores its attributes argument entirely and
stores float(value) as the single per-instrument current value: a record call
produces the same state under any attribute set, an interleaved sequence with
any mixture of attribute sets is indistinguishable from the same sequence
with all attribute sets erased (so distinct attribute sets do not form
distinct gauge series), and get_value returns float of the value recorded. -/
theorem gauge_ignores_attributes_single_value (m : GaugeMetric) :
    (∀ v (a a' : Attrs), m.record v a = m.record v a') ∧
    (∀ v a, (m.record v a).get_value = v.toFloat) ∧
    (∀ ms : List (Attrs × PyNumber),
      m.recordSeq ms = m.recordSeq (ms.map (fun p => (([] : Attrs), p.2)))) := by
  refine ⟨fun v a a' => rfl, fun v a => rfl, fun ms => ?_⟩
  induction ms generalizing m with
  | nil => rfl
  | cons p rest ih =>
    have h1 : m.recordSeq (p :: rest) = (m.record p.2 p.1).recordSeq rest := by
      simp [GaugeMetric.recordSeq]
    have h2 : m.recordSeq ((p :: rest).map (fun p => (([] : Attrs), p.2))) =
        (m.record p.2 []).recordSeq (rest.map (fun p => (([] : Attrs), p.2))) := by
      simp [GaugeMetric.recordSeq]
    rw [h1, h2]
    exact ih (m.record p.2 p.1)

/-- C4: attribute-set identity determines series identity — a measurement
folds into the series of every attribute set equal (as a dict) to its own and
leaves every other series untouched; in particular the requests_total
scenario, three record(1, method=GET) and two record(1, method=POST), reports
at snapshot exactly two series, with sums 3 and 2. -/
theorem attribute_set_series_identity :
    (∀ (st : CounterState) (a b : Attrs) (v : ℚ),
      seriesSum (counterAdd st a v) b = seriesSum st b + (if attrEq a b then v else 0)) ∧
    (⟨"requests_total", "Total requests", "1", some []⟩ : CounterMetric).recordSeq
        [([("method", "GET")], .int 1), ([("method", "GET")], .int 1),
         ([("method", "GET")], .int 1), ([("method", "POST")], .int 1),
         ([("method", "POST")], .int 1)] =
      (⟨"requests_total", "Total requests", "1",
        some [([("method", "GET")], 3), ([("method", "POST")], 2)]⟩, true) := by
  refine ⟨fun st a b v => seriesSum_counterAdd st a b v, ?_⟩
  have hGG : attrEq [("method", "GET")] [("method", "GET")] = true := by decide
  have hGP : attrEq [("method", "GET")] [("method", "POST")] = false := by decide
  have hPG : attrEq [("method", "POST")] [("method", "GET")] = false := by decide
  have hPP : attrEq [("method", "POST")] [("method", "POST")] = true := by decide
  norm_num [CounterMetric.recordSeq, CounterMetric.record, counterAdd,
    PyNumber.toFloat, hGG, hGP, hPG, hPP]

/-- Modelled from the spec: the SDK histogram instrument state — the raw
(attribute set, value) samples recorded since creation (§3 Histogram). -/
abbrev HistogramState := List (Attrs × ℚ)

/-- `HistogramMetric` (source lines 84–109). -/
structure HistogramMetric where
  name : String
  description : String
  unit : String
  instrument : Option HistogramState
deriving DecidableEq

/-- `HistogramMetric.record` (source lines 104–109): raise if the instrument
was never created, otherwise delegate to `_instrument.record` (no value
check). -/
def HistogramMetric.record (m : HistogramMetric) (value : PyNumber) (attributes : Attrs) :
    HistogramMetric × Option RecordError :=
  match m.instrument with
  | none => (m, some .instrumentNotCreated)
  | some st => ({ m with instrument := some (st ++ [(attributes, value.toFloat)]) }, none)

/-- `UpDownCounterMetric` (source lines 150–175). -/
structure UpDownCounterMetric where
  name : String
  description : String
  unit : String
  instrument : Option CounterState
deriving DecidableEq

/-- `UpDownCounterMetric.record` (source lines 170–175): delegate to
`_instrument.add` with no sign check — negative deltas are accepted. -/
def UpDownCounterMetric.record (m : UpDownCounterMetric) (value : PyNumber)
    (attributes : Attrs) : UpDownCounterMetric × Option RecordError :=
  match m.instrument with
  | none => (m, some .instrumentNotCreated)
  | some st => ({ m with instrument := some (counterAdd st attributes value.toFloat) }, none)

/-- The closed set of metric kinds a `MetricsManager` registers (the
`BaseMetric` subclasses of the source). -/
inductive Metric where
  | counter : CounterMetric → Metric
  | histogram : HistogramMetric → Metric
  | gauge : GaugeMetric → Metric
  | upDownCounter : UpDownCounterMetric → Metric
deriving DecidableEq

/-- Python dict assignment `d[k] = v`: replace in place if the key exists,
append otherwise (insertion order preserved). -/
def dictSet (d : List (String × α)) (k : String) (v : α) : List (String × α) :=
  match d with
  | [] => [(k, v)]
  | (k', v') :: rest => if k' = k then (k, v) :: rest else (k', v') :: dictSet rest k v

/-- Python `d.get(k)`. -/
def dictGet (d : List (String × α)) (k : String) : Option α :=
  match d with
  | [] => none
  | (k', v) :: rest => if k' = k then some v else dictGet rest k

theorem dictGet_dictSet_self (d : List (String × α)) (k : String) (v : α) :
    dictGet (dictSet d k v) k = some v := by
  induction d with
  | nil => simp [dictSet, dictGet]
  | cons e rest ih =>
    obtain ⟨k', v'⟩ := e
    by_cases h : k' = k
    · simp [dictSet, dictGet, h]
    · simp [dictSet, dictGet, h, ih]

theorem dictGet_dictSet_ne (d : List (String × α)) (k k' : String) (v : α)
    (h : k' ≠ k) :
    dictGet (dictSet d k v) k' = dictGet d k' := by
  have h' : ¬ k = k' := fun hh => h hh.symm
  induction d with
  | nil => simp [dictSet, dictGet, h']
  | cons e rest ih =>
    obtain ⟨k0, v0⟩ := e
    by_cases h0 : k0 = k
    · subst h0
      simp [dictSet, dictGet, h']
    · simp only [dictSet, h0, if_false]
      simp [dictGet, ih]

/-- The `RuntimeError("Metrics not initialized. Call setup() first.")` of
`MetricsManager.get_meter`. -/
inductive SetupError where
  | metricsNotInitialized
deriving DecidableEq

/-- `MetricsManager` (source lines 178–256).  `meterSet` is `_meter is not
None` and `providerSet` is `_meter_provider is not None`; `metrics` is the
`_metrics` name → metric dict.  `providerShutdown` and `flushed` are the
provider-side scheduler state the manager delegates to, modelled from the
spec (§4.3): whether the scheduler has stopped, and the batch exported by the
final forced flush (none while running). -/
structure MetricsManager where
  meterSet : Bool
  providerSet : Bool
  providerShutdown : Bool
  flushed : Option (List (String × Metric))
  metrics : List (String × Metric)
deriving DecidableEq

/-- `MetricsManager.__init__` (source lines 181–186): no meter, no provider,
empty registry. -/
def MetricsManager.init : MetricsManager :=
  ⟨false, false, false, none, []⟩

/-- `MetricsManager.setup` (source lines 188–208): installs the provider with
its periodic reader and obtains the meter. -/
def MetricsManager.setup (m : MetricsManager) : MetricsManager :=
  { m with meterSet := true, providerSet := true }

/-- `MetricsManager.get_meter` (source lines 210–214). -/
def MetricsManager.get_meter (m : MetricsManager) : Except SetupError Unit :=
  if m.meterSet then .ok () else .error .metricsNotInitialized

/-- `MetricsManager.create_counter` (source lines 216–221): build the metric,
create its instrument on the meter, store it under `name` (a plain dict
assignment — any existing entry is replaced), and return it. -/
def MetricsManager.create_counter (m : MetricsManager) (name description unit : String) :
    Except SetupError (MetricsManager × CounterMetric) :=
  match m.get_meter with
  | .error e => .error e
  | .ok _ =>
    let metric : CounterMetric := ⟨name, description, unit, some []⟩
    .ok ({ m with metrics := dictSet m.metrics name (.counter metric) }, metric)

/-- `MetricsManager.create_histogram` (source lines 223–228). -/
def MetricsManager.create_histogram (m : MetricsManager) (name description unit : String) :
    Except SetupError (MetricsManager × HistogramMetric) :=
  match m.get_meter with
  | .error e => .error e
  | .ok _ =>
    let metric : HistogramMetric := ⟨name, description, unit, some []⟩
    .ok ({ m with metrics := dictSet m.metrics name (.histogram metric) }, metric)

/-- `MetricsManager.create_gauge` (source lines 230–235): the gauge starts at
`_current_value = 0.0`. -/
def MetricsManager.create_gauge (m : MetricsManager) (name description unit : String) :
    Except SetupError (MetricsManager × GaugeMetric) :=
  match m.get_meter with
  | .error e => .error e
  | .ok _ =>
    let metric : GaugeMetric := ⟨name, description, unit, 0⟩
    .ok ({ m with metrics := dictSet m.metrics name (.gauge metric) }, metric)

/-- `MetricsManager.create_up_down_counter` (source lines 237–242). -/
def MetricsManager.create_up_down_counter (m : MetricsManager)
    (name description unit : String) :
    Except SetupError (MetricsManager × UpDownCounterMetric) :=
  match m.get_meter with
  | .error e => .error e
  | .ok _ =>
    let metric : UpDownCounterMetric := ⟨name, description, unit, some []⟩
    .ok ({ m with metrics := dictSet m.metrics name (.upDownCounter metric) }, metric)

/-- `MetricsManager.get_metric` (source lines 244–246): `self._metrics.get(name)`. -/
def MetricsManager.get_metric (m : MetricsManager) (name : String) : Option Metric :=
  dictGet m.metrics name

/-- Modelled from the spec: `MeterProvider.shutdown`, the scheduler stop the
manager delegates to — cancel the timer and perform one final forced export
of the aggregation state (§4.3); the spec makes the stop idempotent, so a
second invocation changes nothing. -/
def providerShutdownOp (m : MetricsManager) : MetricsManager :=
  if m.providerShutdown then m
  else { m with providerShutdown := true, flushed := some m.metrics }

/-- `MetricsManager.shutdown` (source lines 252–256): `if self._meter_provider:
self._meter_provider.shutdown()` — delegate; the manager's own fields (the
provider reference in particular) stay as they are. -/
def MetricsManager.shutdown (m : MetricsManager) : MetricsManager :=
  if m.providerSet then providerShutdownOp m else m

/-- The spec's Registry error for a record call on a name that was never
created (§4.1, §7 UnknownInstrument). -/
inductive RegistryError where
  | unknownInstrument
deriving DecidableEq

/-- Modelled from the spec: the Registry operation `record(name, value,
attributes)` (§4.1) — the repository exposes no record-by-name entry point,
so only the lookup is source code: `MetricsManager.get_metric` returns the
registered metric or nothing, and per the spec a failed lookup surfaces
`UnknownInstrument`; a successful lookup dispatches to the metric's own
`record` from the source. -/
def MetricsManager.recordByName (m : MetricsManager) (name : String) (v : PyNumber)
    (a : Attrs) : Except RegistryError (MetricsManager × Option RecordError) :=
  match m.get_metric name with
  | none => .error .unknownInstrument
  | some (.counter c) =>
    let r := c.record v a
    .ok ({ m with metrics := dictSet m.metrics name (.counter r.1) }, r.2)
  | some (.histogram hg) =>
    let r := hg.record v a
    .ok ({ m with metrics := dictSet m.metrics name (.histogram r.1) }, r.2)
  | some (.gauge g) =>
    .ok ({ m with metrics := dictSet m.metrics name (.gauge (g.record v a)) }, none)
  | some (.upDownCounter u) =>
    let r := u.record v a
    .ok ({ m with metrics := dictSet m.metrics name (.upDownCounter r.1) }, r.2)

/-- One `create_*` call on the manager: the kind and the constructor
arguments. -/
inductive CreateOp where
  | counter (name description unit : String)
  | histogram (name description unit : String)
  | gauge (name description unit : String)
  | upDownCounter (name description unit : String)
deriving DecidableEq

/-- The instrument name a creation call registers. -/
def CreateOp.opName : CreateOp → String
  | .counter n _ _ => n
  | .histogram n _ _ => n
  | .gauge n _ _ => n
  | .upDownCounter n _ _ => n

/-- Run one creation call, keeping the manager unchanged when the call raises
(the only failure is the meter-not-initialized RuntimeError). -/
def MetricsManager.applyCreate (m : MetricsManager) : CreateOp → MetricsManager
  | .counter n d u =>
    match m.create_counter n d u with
    | .ok p => p.1
    | .error _ => m
  | .histogram n d u =>
    match m.create_histogram n d u with
    | .ok p => p.1
    | .error _ => m
  | .gauge n d u =>
    match m.create_gauge n d u with
    | .ok p => p.1
    | .error _ => m
  | .upDownCounter n d u =>
    match m.create_up_down_counter n d u with
    | .ok p => p.1
    | .error _ => m

/-- Run a sequence of creation calls. -/
def MetricsManager.applyCreates (m : MetricsManager) (ops : List CreateOp) : MetricsManager :=
  ops.foldl MetricsManager.applyCreate m

theorem get_metric_applyCreate_ne (m : MetricsManager) (op : CreateOp) (n : String)
    (h : n ≠ op.opName) :
    (m.applyCreate op).get_metric n = m.get_metric n := by
  cases op with
  | counter n0 d u =>
    simp only [CreateOp.opName] at h
    by_cases hm : m.meterSet
    · simp [MetricsManager.applyCreate, MetricsManager.create_counter,
        MetricsManager.get_meter, hm, MetricsManager.get_metric, dictGet_dictSet_ne _ _ _ _ h]
    · simp [MetricsManager.applyCreate, MetricsManager.create_counter,
        MetricsManager.get_meter, hm]
  | histogram n0 d u =>
    simp only [CreateOp.opName] at h
    by_cases hm : m.meterSet
    · simp [MetricsManager.applyCreate, MetricsManager.create_histogram,
        MetricsManager.get_meter, hm, MetricsManager.get_metric, dictGet_dictSet_ne _ _ _ _ h]
    · simp [MetricsManager.applyCreate, MetricsManager.create_histogram,
        MetricsManager.get_meter, hm]
  | gauge n0 d u =>
    simp only [CreateOp.opName] at h
    by_cases hm : m.meterSet
    · simp [MetricsManager.applyCreate, MetricsManager.create_gauge,
        MetricsManager.get_meter, hm, MetricsManager.get_metric, dictGet_dictSet_ne _ _ _ _ h]
    · simp [MetricsManager.applyCreate, MetricsManager.create_gauge,
        MetricsManager.get_meter, hm]
  | upDownCounter n0 d u =>
    simp only [CreateOp.opName] at h
    by_cases hm : m.meterSet
    · simp [MetricsManager.applyCreate, MetricsManager.create_up_down_counter,
        MetricsManager.get_meter, hm, MetricsManager.get_metric, dictGet_dictSet_ne _ _ _ _ h]
    · simp [MetricsManager.applyCreate, MetricsManager.create_up_down_counter,
        MetricsManager.get_meter, hm]

theorem get_metric_applyCreates_notin (ops : List CreateOp) (m : MetricsManager)
    (n : String) (h : n ∉ ops.map CreateOp.opName) :
    (m.applyCreates ops).get_metric n = m.get_metric n := by
  induction ops generalizing m with
  | nil => rfl
  | cons op rest ih =>
    simp only [List.map_cons, List.mem_cons, not_or] at h
    have step : (m.applyCreate op).get_metric n = m.get_metric n :=
      get_metric_applyCreate_ne m op n h.1
    have tail := ih (m.applyCreate op) h.2
    simpa [MetricsManager.applyCreates] using tail.trans step

/-- C5 fails on the code: with a gauge already registered as
"requests_total", create_counter on the same name does not fail with any
duplicate-instrument error — it succeeds and silently replaces the registry
entry with the new counter, and does not return the existing instrument. -/
theorem duplicate_create_counterexample :
    MetricsManager.create_counter
        ⟨true, true, false, none,
         [("requests_total", Metric.gauge ⟨"requests_total", "g", "1", 0⟩)]⟩
        "requests_total" "Total requests" "1" =
      .ok (⟨true, true, false, none,
            [("requests_total",
              Metric.counter ⟨"requests_total", "Total requests", "1", some []⟩)]⟩,
           ⟨"requests_total", "Total requests", "1", some []⟩) := by
  rfl

/-- C5 amended: creation performs no duplicate check at all: with the meter
set up, create_counter on a name — whether or not it already exists, with
whatever kind — always succeeds, silently replaces any existing registry
entry under that name with the freshly built counter, and leaves every other
entry unchanged. -/
theorem create_counter_always_overwrites (m : MetricsManager)
    (name description unit : String) (hmeter : m.meterSet = true) :
    ∃ m', m.create_counter name description unit =
        .ok (m', ⟨name, description, unit, some []⟩) ∧
      m'.get_metric name = some (.counter ⟨name, description, unit, some []⟩) ∧
      ∀ n', n' ≠ name → m'.get_metric n' = m.get_metric n' := by
  refine ⟨{ m with metrics := dictSet m.metrics name (Metric.counter ⟨name, description, unit, some []⟩) }, ?_, ?_, ?_⟩
  · simp [MetricsManager.create_counter, MetricsManager.get_meter, hmeter]
  · simp [MetricsManager.get_metric, dictGet_dictSet_self]
  · intro n' hn'
    simp [MetricsManager.get_metric, dictGet_dictSet_ne _ _ _ _ hn']

theorem create_counter_always_overwrites_witness :
    ∃ m', MetricsManager.create_counter
        ⟨true, true, false, none,
         [("requests_total", Metric.gauge ⟨"requests_total", "g", "1", 0⟩)]⟩
        "requests_total" "Total requests" "1" =
        .ok (m', ⟨"requests_total", "Total requests", "1", some []⟩) ∧
      m'.get_metric "requests_total" =
        some (.counter ⟨"requests_total", "Total requests", "1", some []⟩) ∧
      ∀ n', n' ≠ "requests_total" →
        m'.get_metric n' =
          MetricsManager.get_metric
            ⟨true, true, false, none,
             [("requests_total", Metric.gauge ⟨"requests_total", "g", "1", 0⟩)]⟩ n' :=
  create_counter_always_overwrites _ _ _ _ rfl

/-- C6: a record call referencing a name that was never passed to any
creation call fails with UnknownInstrument: starting from a manager whose
registry is empty, after any sequence of creation calls none of which used
the name, record-by-name on that name surfaces the error (and raises
nothing, so the process is not aborted). -/
theorem record_unknown_instrument (m0 : MetricsManager) (ops : List CreateOp)
    (name : String) (v : PyNumber) (a : Attrs)
    (h0 : m0.metrics = []) (h : name ∉ ops.map CreateOp.opName) :
    (m0.applyCreates ops).recordByName name v a = .error RegistryError.unknownInstrument := by
  have hlook : (m0.applyCreates ops).get_metric name = none := by
    rw [get_metric_applyCreates_notin ops m0 name h, MetricsManager.get_metric, h0]
    rfl
  rw [MetricsManager.recordByName, hlook]

theorem record_unknown_instrument_witness :
    (MetricsManager.applyCreates MetricsManager.init.setup
        [CreateOp.counter "http_requests_total" "Total requests" "1",
         CreateOp.gauge "memory_usage_bytes" "Current memory usage" "By"]).recordByName
        "latency" (.int 1) [] = .error RegistryError.unknownInstrument :=
  record_unknown_instrument MetricsManager.init.setup _ "latency" _ _ rfl (by decide)

/-- C7 fails on the code: after stop() has completed (the provider flushed
and stopped), the counter registered in the post-shutdown manager accepts a
subsequent record call with no error at all — in particular not
ManagerShutdown: CounterMetric.record checks only the instrument and the
value's sign, never any shutdown state. -/
theorem record_after_shutdown_counterexample :
    (MetricsManager.shutdown
        ⟨true, true, false, none,
         [("requests_total",
           Metric.counter ⟨"requests_total", "Total requests", "1", some []⟩)]⟩).get_metric
        "requests_total" =
      some (.counter ⟨"requests_total", "Total requests", "1", some []⟩) ∧
    (MetricsManager.shutdown
        ⟨true, true, false, none,
         [("requests_total",
           Metric.counter ⟨"requests_total", "Total requests", "1", some []⟩)]⟩).providerShutdown
      = true ∧
    ((⟨"requests_total", "Total requests", "1", some []⟩ : CounterMetric).record
        (.int 5) []).2 = none := by
  refine ⟨rfl, rfl, ?_⟩
  have h5 : ¬ (PyNumber.int 5).toFloat < 0 := by decide
  simp [CounterMetric.record, h5]

/-- C7 amended: stop() does perform the final flush — the flushed batch is
exactly the aggregation state at stop time, which carries every measurement
recorded strictly before stop() (cumulative sums) — but a subsequent record
call does not fail with ManagerShutdown: a counter found in the post-shutdown
registry accepts any non-negative value with no error, because the source has
no shutdown check in record. -/
theorem shutdown_flushes_and_record_unchecked (m : MetricsManager)
    (hp : m.providerSet = true) (hs : m.providerShutdown = false) :
    m.shutdown.flushed = some m.metrics ∧
    ∀ name c st, m.shutdown.get_metric name = some (.counter c) →
      c.instrument = some st → ∀ v a, 0 ≤ v.toFloat → (c.record v a).2 = none := by
  constructor
  · simp [MetricsManager.shutdown, providerShutdownOp, hp, hs]
  · intro name c st _ hc v a hv
    have hv0 : ¬ v.toFloat < 0 := not_lt.mpr hv
    simp [CounterMetric.record, hc, hv0]

theorem shutdown_flushes_and_record_unchecked_witness :
    (MetricsManager.shutdown
        ⟨true, true, false, none,
         [("requests_total",
           Metric.counter ⟨"requests_total", "Total requests", "1", some []⟩)]⟩).flushed =
      some [("requests_total",
             Metric.counter ⟨"requests_total", "Total requests", "1", some []⟩)] ∧
    ((⟨"requests_total", "Total requests", "1", some []⟩ : CounterMetric).record
        (.int 5) []).2 = none :=
  ⟨(shutdown_flushes_and_record_unchecked _ rfl rfl).1,
   (shutdown_flushes_and_record_unchecked
      ⟨true, true, false, none,
       [("requests_total",
         Metric.counter ⟨"requests_total", "Total requests", "1", some []⟩)]⟩
      rfl rfl).2 "requests_total" _ [] rfl rfl (.int 5) [] (by decide)⟩

/-- C8: shutdown is idempotent: a second stop() after the first completed is
a no-op — the manager and the provider-side scheduler state are left exactly
as the first stop() left them. -/
theorem shutdown_idempotent (m : MetricsManager) :
    m.shutdown.shutdown = m.shutdown := by
  unfold MetricsManager.shutdown providerShutdownOp
  by_cases hp : m.providerSet = true <;> by_cases hs : m.providerShutdown = true <;>
    simp [hp, hs]

/-- A heap of Python dict objects (name → metric): cell `r` holds the entries
of dict object number `r`.  The manager's `_metrics` is one such object;
`list_metrics()` allocates another. -/
structure DictStore where
  cells : List (List (String × Metric))
deriving DecidableEq

/-- The entries of dict object `r` (empty for a dangling reference). -/
def DictStore.getCell (s : DictStore) (r : Nat) : List (String × Metric) :=
  (s.cells.get? r).getD []

/-- `MetricsManager.list_metrics` (source lines 248–250): `return
self._metrics.copy()` — allocate a fresh dict object holding the same entries
(a shallow copy) and hand the caller a reference to the new object; the
manager keeps its own reference `mgrRef`. -/
def listMetricsCopy (s : DictStore) (mgrRef : Nat) : DictStore × Nat :=
  (⟨s.cells ++ [s.getCell mgrRef]⟩, s.cells.length)

/-- A caller-side mutation of a dict object: add or replace an entry, or
remove one. -/
inductive DictMutation where
  | set (k : String) (v : Metric)
  | erase (k : String)
deriving DecidableEq

/-- Apply one mutation to a dict's entry list. -/
def applyDictMutation (d : List (String × Metric)) : DictMutation → List (String × Metric)
  | .set k v => dictSet d k v
  | .erase k => d.filter (fun e => !(e.1 == k))

/-- Mutate dict object `r` in place. -/
def DictStore.mutate (s : DictStore) (r : Nat) (mu : DictMutation) : DictStore :=
  ⟨s.cells.set r (applyDictMutation (s.getCell r) mu)⟩

/-- Apply a whole sequence of mutations to dict object `r`. -/
def DictStore.mutateAll (s : DictStore) (r : Nat) (mus : List DictMutation) : DictStore :=
  mus.foldl (fun s mu => s.mutate r mu) s

theorem getCell_mutate_ne (s : DictStore) (r q : Nat) (mu : DictMutation) (h : q ≠ r) :
    (s.mutate r mu).getCell q = s.getCell q := by
  simp [DictStore.mutate, DictStore.getCell, List.getElem?_set_ne (Ne.symm h)]

theorem getCell_mutateAll_ne (mus : List DictMutation) (s : DictStore) (r q : Nat)
    (h : q ≠ r) :
    (s.mutateAll r mus).getCell q = s.getCell q := by
  induction mus generalizing s with
  | nil => rfl
  | cons mu rest ih =>
    simp only [DictStore.mutateAll, List.foldl_cons] at *
    rw [ih (s.mutate r mu), getCell_mutate_ne s r q mu h]

/-- C10: list_metrics returns a copy of the manager's registry: whatever
sequence of mutations — adding, removing or replacing entries — the caller
applies to the dict object list_metrics returned, the manager's own dict, and
with it every registered metric, is left unchanged. -/
theorem list_metrics_returns_copy (s : DictStore) (mgrRef : Nat)
    (h : mgrRef < s.cells.length) (mus : List DictMutation) :
    ((listMetricsCopy s mgrRef).1.mutateAll (listMetricsCopy s mgrRef).2 mus).getCell mgrRef
      = s.getCell mgrRef := by
  have hne : mgrRef ≠ s.cells.length := Nat.ne_of_lt h
  rw [listMetricsCopy, getCell_mutateAll_ne mus _ _ _ hne]
  simp [DictStore.getCell, List.getElem?_append_left h]

theorem list_metrics_returns_copy_witness :
    ((listMetricsCopy
          ⟨[[("requests_total",
              Metric.counter ⟨"requests_total", "Total requests", "1", some []⟩)]]⟩ 0).1.mutateAll
        (listMetricsCopy
          ⟨[[("requests_total",
              Metric.counter ⟨"requests_total", "Total requests", "1", some []⟩)]]⟩ 0).2
        [DictMutation.erase "requests_total"]).getCell 0
      = DictStore.getCell
          ⟨[[("requests_total",
              Metric.counter ⟨"requests_total", "Total requests", "1", some []⟩)]]⟩ 0 :=
  list_metrics_returns_copy _ 0 (by decide) _
